import Mathlib

/-!
Verification of the order-service core: the `CreateOrder` orchestration,
the cache-aside read path `GetOrdersByProductID`, and the redis-backed
`OrderCache`.  Go source files are shallowly embedded: collaborator
outcomes (HTTP reply, store result, publish result) are passed in
explicitly, machine numbers become `Int`/`ℚ`, side effects are collected
in an explicit effects record, and the redis client is modelled as a
keyed store with expiry timestamps.
-/

namespace OrderService

/-- Go struct `repository.Order` (repository package).  `time.Time`
is abstracted to an integer timestamp; `float64` prices become `ℚ`. -/
structure Order where
  id         : String
  productId  : String
  totalPrice : ℚ
  quantity   : Int
  status     : String
  createdAt  : Int
deriving Repr, DecidableEq

/-- Request DTO `service.CreateOrderRequest`. -/
structure CreateOrderRequest where
  productId : String
  quantity  : Int
deriving Repr, DecidableEq

/-- Catalog DTO `service.ProductResponse`, the decoded catalog reply. -/
structure ProductResponse where
  id    : String
  name  : String
  price : ℚ
  qty   : Int
deriving Repr, DecidableEq

/-- Outcome of the `http.Get` call made by `fetchProductInfo`:
either a transport failure, or a response with a status code and a
body; the body is `some p` when `json.Decode` succeeds on it and
`none` when the body is malformed. -/
inductive HttpOutcome where
  | transportError (msg : String)
  | response (statusCode : Nat) (body : Option ProductResponse)
deriving Repr, DecidableEq

/-- Collaborator outcomes injected into one `CreateOrder` call:
the HTTP reply, the store's `Create` result (`none` = success),
the publisher's result (`none` = success), the fresh `uuid.New()`
and the `time.Now()` value. -/
structure CreateEnv where
  http       : HttpOutcome
  storeErr   : Option String
  publishErr : Option String
  newId      : String
  now        : Int
deriving Repr, DecidableEq

/-- Side effects observed during one `CreateOrder` call: orders passed
to `repo.Create`, `(productId, quantity)` pairs passed to
`publisher.PublishOrderCreated`, and log lines. -/
structure CreateEffects where
  createCalls  : List Order
  publishCalls : List (String × Int)
  logs         : List String
deriving Repr, DecidableEq

/-- Function `OrderService.fetchProductInfo`: transport error, non-200 status and
body-decode failure each yield an error; otherwise the decoded product. -/
def fetchProductInfo (env : CreateEnv) : Except String ProductResponse :=
  match env.http with
  | .transportError msg =>
      .error ("failed to call product service: " ++ msg)
  | .response statusCode body =>
      if statusCode ≠ 200 then
        .error ("product service returned status: " ++ toString statusCode)
      else
        match body with
        | none => .error "failed to decode product response"
        | some product => .ok product

/-- Function `OrderService.CreateOrder`, translated line by line from the source:
fetch product info, validate stock, build the order, persist it, then
publish best-effort (a publish failure is only logged). -/
def CreateOrder (env : CreateEnv) (req : CreateOrderRequest) :
    Except String Order × CreateEffects :=
  match fetchProductInfo env with
  | .error e =>
      (.error "product not found or service unavailable",
       ⟨[], [], ["Error fetching product " ++ req.productId ++ ": " ++ e]⟩)
  | .ok product =>
      if product.qty < req.quantity then
        (.error "insufficient stock", ⟨[], [], []⟩)
      else
        let order : Order :=
          { id := env.newId
            productId := req.productId
            totalPrice := product.price * (req.quantity : ℚ)
            quantity := req.quantity
            status := "PENDING"
            createdAt := env.now }
        match env.storeErr with
        | some e => (.error e, ⟨[order], [], []⟩)
        | none =>
            match env.publishErr with
            | some e =>
                (.ok order,
                 ⟨[order], [(order.productId, order.quantity)],
                  ["Failed to publish order.created event: " ++ e]⟩)
            | none =>
                (.ok order,
                 ⟨[order], [(order.productId, order.quantity)],
                  ["Published order.created event for product " ++ order.productId]⟩)

/-- Key derivation `OrderCache.GetCacheKeyForProduct`. -/
def GetCacheKeyForProduct (productID : String) : String :=
  "orders:product:" ++ productID

/-- Collaborator outcomes injected into one `GetOrdersByProductID` call:
the pair returned by `cache.Get` (a Go nil slice is `none`, a non-nil
slice is `some`; the second component is the Go error value), the
store's `GetByProductID` result, and the `cache.Set` result. -/
structure ReadEnv where
  cacheResult : Option (List Order)
  cacheErr    : Option String
  storeResult : Except String (List Order)
  setErr      : Option String
deriving Repr

/-- Side effects observed during one `GetOrdersByProductID` call:
product ids passed to `repo.GetByProductID`, `(key, orders)` pairs
passed to `cache.Set`, and log lines. -/
structure ReadEffects where
  storeQueries : List String
  cacheSets    : List (String × List Order)
  logs         : List String
deriving Repr, DecidableEq

/-- Function `OrderService.GetOrdersByProductID`, translated line by line:
probe the cache (a read error is only logged), return any non-nil
cached slice at once, otherwise query the store, propagate its error,
and on success write the cache best-effort. -/
def GetOrdersByProductID (env : ReadEnv) (productID : String) :
    Except String (List Order) × ReadEffects :=
  let cacheKey := GetCacheKeyForProduct productID
  let getLogs : List String :=
    match env.cacheErr with
    | some e => ["Redis error on get: " ++ e]
    | none => []
  match env.cacheResult with
  | some cachedOrders =>
      (.ok cachedOrders, ⟨[], [], getLogs ++ ["Returning cached orders"]⟩)
  | none =>
      let dbLogs := getLogs ++ ["Fetching orders from DB"]
      match env.storeResult with
      | .error e => (.error e, ⟨[productID], [], dbLogs⟩)
      | .ok orders =>
          let setLogs : List String :=
            match env.setErr with
            | some e => ["Redis error on set: " ++ e]
            | none => []
          (.ok orders, ⟨[productID], [(cacheKey, orders)], dbLogs ++ setLogs⟩)

/-- The value a redis key holds, seen through `json.Unmarshal` on
`[]Order`: `marshalled l` is the output of `json.Marshal` on `l` (which
`Unmarshal` decodes back to `l` with no error); `invalid e` is a byte
string that is not valid JSON (`Unmarshal` leaves the slice nil and
returns the error `e`); `partialJson l e` is valid JSON whose element
types mismatch partway, on which `Unmarshal` leaves the partially
decoded non-nil slice `l` and returns the error `e`. -/
inductive RedisValue where
  | marshalled (orders : List Order)
  | invalid (e : String)
  | partialJson (part : List Order) (e : String)
deriving Repr, DecidableEq

/-- Result of `json.Unmarshal([]byte(val), &orders)` followed by
`return orders, err`: the (slice, error) pair each `RedisValue` decodes
to (nil slice = `none`). -/
def unmarshalOrders : RedisValue → Option (List Order) × Option String
  | .marshalled orders => (some orders, none)
  | .invalid e => (none, some e)
  | .partialJson l e => (some l, some e)

/-- Model of `json.Marshal(orders)`: total on `[]Order`, mirrored with the
source's error branch kept. -/
def marshalOrders (orders : List Order) : Except String RedisValue :=
  .ok (.marshalled orders)

/-- State of the backing redis instance: entries `(key, value,
expiresAt)` and whether the instance is reachable. -/
structure RedisState where
  entries   : List (String × RedisValue × Int)
  available : Bool
deriving Repr, DecidableEq

/-- Reply of the redis `GET` command: the miss sentinel `redis.Nil`,
a stored value, or a transport error. -/
inductive RedisGetReply where
  | nilReply
  | value (v : RedisValue)
  | error (e : String)
deriving Repr, DecidableEq

/-- Redis command `client.Get(ctx, key).Result()` at time `t`: a missing or expired
key is the `redis.Nil` miss; an unreachable instance is an error. -/
def redisGetCmd (st : RedisState) (t : Int) (key : String) : RedisGetReply :=
  if st.available then
    match st.entries.find? (fun e => e.1 = key) with
    | none => .nilReply
    | some (_, v, expiresAt) => if t < expiresAt then .value v else .nilReply
  else
    .error "redis: connection refused"

/-- Redis command `client.Set(ctx, key, val, 60*time.Second).Err()` at time `t`:
replaces the key's entry with expiry `t + 60`. -/
def redisSetCmd (st : RedisState) (t : Int) (key : String) (v : RedisValue) :
    RedisState × Option String :=
  if st.available then
    ({ st with entries := (key, v, t + 60) :: st.entries.filter (fun e => e.1 ≠ key) },
     none)
  else
    (st, some "redis: connection refused")

namespace OrderCache

/-- Method `OrderCache.Get`: `redis.Nil` becomes `(nil, nil)`, another redis
error is propagated, otherwise the stored bytes are unmarshalled and
the (slice, error) pair returned as-is. -/
def Get (st : RedisState) (t : Int) (key : String) :
    Option (List Order) × Option String :=
  match redisGetCmd st t key with
  | .nilReply => (none, none)
  | .error e => (none, some e)
  | .value v => unmarshalOrders v

/-- Method `OrderCache.Set`: marshal the slice, then `SET` with a 60-second
expiration. -/
def Set (st : RedisState) (t : Int) (key : String) (orders : List Order) :
    RedisState × Option String :=
  match marshalOrders orders with
  | .error e => (st, some e)
  | .ok v => redisSetCmd st t key v

end OrderCache

/-! ## General lemmas about the embedded operations -/

/-- A failed catalog fetch makes `CreateOrder` return the single
product-unavailable error with empty store and publish traces. -/
theorem createOrder_of_fetchError (env : CreateEnv) (req : CreateOrderRequest)
    (e : String) (hfetch : fetchProductInfo env = .error e) :
    CreateOrder env req =
      (.error "product not found or service unavailable",
       ⟨[], [], ["Error fetching product " ++ req.productId ++ ": " ++ e]⟩) := by
  simp [CreateOrder, hfetch]

/-- The order value `CreateOrder` constructs from the request, the
catalog snapshot and the injected id/timestamp. -/
def builtOrder (env : CreateEnv) (req : CreateOrderRequest)
    (product : ProductResponse) : Order :=
  { id := env.newId
    productId := req.productId
    totalPrice := product.price * (req.quantity : ℚ)
    quantity := req.quantity
    status := "PENDING"
    createdAt := env.now }

/-- When the fetch succeeds, stock suffices and the store write
succeeds, `CreateOrder` returns the built order and records one
store write and one publish attempt. -/
theorem createOrder_of_success (env : CreateEnv) (req : CreateOrderRequest)
    (product : ProductResponse)
    (hfetch : fetchProductInfo env = .ok product)
    (hqty : req.quantity ≤ product.qty)
    (hstore : env.storeErr = none) :
    (CreateOrder env req).1 = .ok (builtOrder env req product) ∧
    (CreateOrder env req).2.createCalls = [builtOrder env req product] ∧
    (CreateOrder env req).2.publishCalls = [(req.productId, req.quantity)] := by
  cases hpub : env.publishErr <;>
    simp [CreateOrder, hfetch, hstore, hpub, not_lt.mpr hqty, builtOrder]

/-! ## Claim theorems -/

/-- C1: for every request with quantity ≤ the catalog-reported
availableQty, when the catalog fetch and the store write succeed,
`CreateOrder` returns an Order whose totalPrice equals
unitPrice × quantity, whose status is "PENDING", and whose productId
and quantity equal the request's, with no error. -/
theorem createOrder_success_shape (env : CreateEnv) (req : CreateOrderRequest)
    (product : ProductResponse)
    (hfetch : fetchProductInfo env = .ok product)
    (hqty : req.quantity ≤ product.qty)
    (hstore : env.storeErr = none) :
    ∃ order : Order,
      (CreateOrder env req).1 = .ok order ∧
      order.totalPrice = product.price * (req.quantity : ℚ) ∧
      order.status = "PENDING" ∧
      order.productId = req.productId ∧
      order.quantity = req.quantity := by
  exact ⟨builtOrder env req product,
    (createOrder_of_success env req product hfetch hqty hstore).1,
    rfl, rfl, rfl, rfl⟩

/-- Witness for C1: the spec's concrete scenario — catalog reports
unitPrice 10, availableQty 100 for "valid-product"; the request asks
for quantity 5. -/
theorem createOrder_success_shape_witness :
    ∃ order : Order,
      (CreateOrder
          ⟨.response 200 (some ⟨"valid-product", "Test", 10, 100⟩),
           none, none, "id-1", 0⟩
          ⟨"valid-product", 5⟩).1 = .ok order ∧
      order.totalPrice = (10 : ℚ) * ((5 : Int) : ℚ) ∧
      order.status = "PENDING" ∧
      order.productId = "valid-product" ∧
      order.quantity = 5 :=
  createOrder_success_shape
    ⟨.response 200 (some ⟨"valid-product", "Test", 10, 100⟩),
     none, none, "id-1", 0⟩
    ⟨"valid-product", 5⟩ ⟨"valid-product", "Test", 10, 100⟩
    rfl (by decide) rfl

/-- C2: for every request with quantity strictly greater than the
catalog-reported availableQty, `CreateOrder` fails with the
insufficient-stock error, the store receives no write and the
publisher is not invoked. -/
theorem createOrder_insufficient_stock (env : CreateEnv)
    (req : CreateOrderRequest) (product : ProductResponse)
    (hfetch : fetchProductInfo env = .ok product)
    (hqty : product.qty < req.quantity) :
    CreateOrder env req = (.error "insufficient stock", ⟨[], [], []⟩) := by
  simp [CreateOrder, hfetch, hqty]

/-- Witness for C2: the spec's concrete scenario — catalog reports
availableQty 1 for "no-stock"; the request asks for quantity 5. -/
theorem createOrder_insufficient_stock_witness :
    CreateOrder
        ⟨.response 200 (some ⟨"no-stock", "Test", 10, 1⟩),
         none, none, "id-1", 0⟩
        ⟨"no-stock", 5⟩ = (.error "insufficient stock", ⟨[], [], []⟩) :=
  createOrder_insufficient_stock
    ⟨.response 200 (some ⟨"no-stock", "Test", 10, 1⟩), none, none, "id-1", 0⟩
    ⟨"no-stock", 5⟩ ⟨"no-stock", "Test", 10, 1⟩ rfl (by decide)

/-- C3: whenever the catalog lookup fails — transport failure,
non-success status, or malformed body — `CreateOrder` returns the
single product-unavailable error and neither a store write nor a
publish occurs. -/
theorem createOrder_product_unavailable (env : CreateEnv)
    (req : CreateOrderRequest)
    (hfail : (∃ msg, env.http = .transportError msg) ∨
             (∃ statusCode body, env.http = .response statusCode body ∧
                statusCode ≠ 200) ∨
             (∃ statusCode, env.http = .response statusCode none)) :
    (CreateOrder env req).1 = .error "product not found or service unavailable" ∧
    (CreateOrder env req).2.createCalls = [] ∧
    (CreateOrder env req).2.publishCalls = [] := by
  have hferr : ∃ e, fetchProductInfo env = .error e := by
    rcases hfail with ⟨msg, h⟩ | ⟨statusCode, body, h, hne⟩ | ⟨statusCode, h⟩
    · exact ⟨"failed to call product service: " ++ msg,
        by simp [fetchProductInfo, h]⟩
    · exact ⟨"product service returned status: " ++ toString statusCode,
        by simp [fetchProductInfo, h, hne]⟩
    · by_cases h200 : statusCode = 200
      · exact ⟨"failed to decode product response",
          by simp [fetchProductInfo, h, h200]⟩
      · exact ⟨"product service returned status: " ++ toString statusCode,
          by simp [fetchProductInfo, h, h200]⟩
  obtain ⟨e, he⟩ := hferr
  rw [createOrder_of_fetchError env req e he]
  exact ⟨rfl, rfl, rfl⟩

/-- Witness for C3: a malformed body behind a 200 status. -/
theorem createOrder_product_unavailable_witness :
    (CreateOrder ⟨.response 200 none, none, none, "id-1", 0⟩
        ⟨"p", 1⟩).1 = .error "product not found or service unavailable" ∧
    (CreateOrder ⟨.response 200 none, none, none, "id-1", 0⟩
        ⟨"p", 1⟩).2.createCalls = [] ∧
    (CreateOrder ⟨.response 200 none, none, none, "id-1", 0⟩
        ⟨"p", 1⟩).2.publishCalls = [] :=
  createOrder_product_unavailable
    ⟨.response 200 none, none, none, "id-1", 0⟩ ⟨"p", 1⟩
    (Or.inr (Or.inr ⟨200, rfl⟩))

/-- C4: when `OrderStore.Create` fails, `CreateOrder` propagates the
store's error verbatim and the publisher is never invoked. -/
theorem createOrder_persist_failure (env : CreateEnv)
    (req : CreateOrderRequest) (product : ProductResponse) (e : String)
    (hfetch : fetchProductInfo env = .ok product)
    (hqty : req.quantity ≤ product.qty)
    (hstore : env.storeErr = some e) :
    (CreateOrder env req).1 = .error e ∧
    (CreateOrder env req).2.publishCalls = [] := by
  simp [CreateOrder, hfetch, hstore, not_lt.mpr hqty]

/-- Witness for C4: the store fails with "db write failed". -/
theorem createOrder_persist_failure_witness :
    (CreateOrder
        ⟨.response 200 (some ⟨"p", "Test", 10, 100⟩),
         some "db write failed", none, "id-1", 0⟩
        ⟨"p", 5⟩).1 = .error "db write failed" ∧
    (CreateOrder
        ⟨.response 200 (some ⟨"p", "Test", 10, 100⟩),
         some "db write failed", none, "id-1", 0⟩
        ⟨"p", 5⟩).2.publishCalls = [] :=
  createOrder_persist_failure
    ⟨.response 200 (some ⟨"p", "Test", 10, 100⟩),
     some "db write failed", none, "id-1", 0⟩
    ⟨"p", 5⟩ ⟨"p", "Test", 10, 100⟩ "db write failed" rfl (by decide) rfl

/-- C5: when the store write succeeds but the subsequent publish
fails, `CreateOrder` still returns the created Order with no error,
and the persisted order is not rolled back (the single store write
remains). -/
theorem createOrder_publish_failure_invisible (env : CreateEnv)
    (req : CreateOrderRequest) (product : ProductResponse) (e : String)
    (hfetch : fetchProductInfo env = .ok product)
    (hqty : req.quantity ≤ product.qty)
    (hstore : env.storeErr = none)
    (hpub : env.publishErr = some e) :
    ∃ order : Order,
      (CreateOrder env req).1 = .ok order ∧
      (CreateOrder env req).2.createCalls = [order] := by
  refine ⟨builtOrder env req product, ?_, ?_⟩ <;>
    simp [CreateOrder, hfetch, hstore, hpub, not_lt.mpr hqty, builtOrder]

/-- Witness for C5: the publisher fails with "broker down". -/
theorem createOrder_publish_failure_invisible_witness :
    ∃ order : Order,
      (CreateOrder
          ⟨.response 200 (some ⟨"p", "Test", 10, 100⟩),
           none, some "broker down", "id-1", 0⟩
          ⟨"p", 5⟩).1 = .ok order ∧
      (CreateOrder
          ⟨.response 200 (some ⟨"p", "Test", 10, 100⟩),
           none, some "broker down", "id-1", 0⟩
          ⟨"p", 5⟩).2.createCalls = [order] :=
  createOrder_publish_failure_invisible
    ⟨.response 200 (some ⟨"p", "Test", 10, 100⟩),
     none, some "broker down", "id-1", 0⟩
    ⟨"p", 5⟩ ⟨"p", "Test", 10, 100⟩ "broker down" rfl (by decide) rfl rfl

/-- C9: a zero or negative quantity is not rejected: when the fetch
succeeds, availableQty ≥ quantity, the unit price is nonnegative and
the store write succeeds, `CreateOrder` constructs and persists an
order whose totalPrice = unitPrice × quantity is zero or negative. -/
theorem createOrder_nonpositive_quantity_accepted (env : CreateEnv)
    (req : CreateOrderRequest) (product : ProductResponse)
    (hfetch : fetchProductInfo env = .ok product)
    (hq0 : req.quantity ≤ 0)
    (hqty : req.quantity ≤ product.qty)
    (hstore : env.storeErr = none)
    (hprice : 0 ≤ product.price) :
    ∃ order : Order,
      (CreateOrder env req).1 = .ok order ∧
      (CreateOrder env req).2.createCalls = [order] ∧
      order.totalPrice = product.price * (req.quantity : ℚ) ∧
      order.totalPrice ≤ 0 := by
  refine ⟨builtOrder env req product,
    (createOrder_of_success env req product hfetch hqty hstore).1,
    (createOrder_of_success env req product hfetch hqty hstore).2.1,
    rfl, ?_⟩
  have hcast : ((req.quantity : ℚ)) ≤ 0 := by exact_mod_cast hq0
  exact mul_nonpos_of_nonneg_of_nonpos hprice hcast

/-- C9 counterexample: with a negative quantity the order is still
created, but when the catalog reports a negative unit price the
resulting totalPrice is strictly positive, so the claim's "zero or
negative" conclusion fails as universally stated. -/
theorem createOrder_nonpositive_quantity_counterexample :
    (CreateOrder
        ⟨.response 200 (some ⟨"p", "Test", -10, 0⟩), none, none, "id-1", 0⟩
        ⟨"p", -1⟩).1 =
      .ok ⟨"id-1", "p", 10, -1, "PENDING", 0⟩ ∧
    ¬ ((10 : ℚ) ≤ 0) := by
  constructor
  · simp [CreateOrder, fetchProductInfo]
  · norm_num

/-- Witness for C9: quantity 0 against price 10 and stock 100 yields
an accepted order with totalPrice 0. -/
theorem createOrder_nonpositive_quantity_accepted_witness :
    ∃ order : Order,
      (CreateOrder
          ⟨.response 200 (some ⟨"p", "Test", 10, 100⟩),
           none, none, "id-1", 0⟩
          ⟨"p", 0⟩).1 = .ok order ∧
      (CreateOrder
          ⟨.response 200 (some ⟨"p", "Test", 10, 100⟩),
           none, none, "id-1", 0⟩
          ⟨"p", 0⟩).2.createCalls = [order] ∧
      order.totalPrice = (10 : ℚ) * ((0 : Int) : ℚ) ∧
      order.totalPrice ≤ 0 :=
  createOrder_nonpositive_quantity_accepted
    ⟨.response 200 (some ⟨"p", "Test", 10, 100⟩), none, none, "id-1", 0⟩
    ⟨"p", 0⟩ ⟨"p", "Test", 10, 100⟩ rfl (by decide) (by decide) rfl (by norm_num)

/-- C6: when the cache probe returns a non-nil result — including an
explicitly empty but non-nil cached list — `GetOrdersByProductID`
returns that result immediately and the store is never queried; a nil
cache result always means the store is consulted. -/
theorem getOrders_cache_hit_skips_store (env : ReadEnv) (pid : String) :
    (∀ l, env.cacheResult = some l →
       (GetOrdersByProductID env pid).1 = .ok l ∧
       (GetOrdersByProductID env pid).2.storeQueries = []) ∧
    (env.cacheResult = none →
       (GetOrdersByProductID env pid).2.storeQueries = [pid]) := by
  constructor
  · intro l hl
    simp [GetOrdersByProductID, hl]
  · intro hn
    cases hs : env.storeResult <;> simp [GetOrdersByProductID, hn, hs]

/-- Witness for C6: a cached empty list is returned as-is and the
store query trace stays empty. -/
theorem getOrders_cache_hit_skips_store_witness :
    (GetOrdersByProductID ⟨some [], none, .ok [], none⟩ "p").1 = .ok [] ∧
    (GetOrdersByProductID ⟨some [], none, .ok [], none⟩ "p").2.storeQueries = [] :=
  (getOrders_cache_hit_skips_store ⟨some [], none, .ok [], none⟩ "p").1 [] rfl

/-- C7: a cache read error together with a nil cache result is treated
identically to a cache miss: the result and the store/cache-write
effects match the error-free run, the store is queried, and any
failure of the read comes from the store, never from the cache. -/
theorem getOrders_cache_error_swallowed (env : ReadEnv) (pid e : String)
    (hmiss : env.cacheResult = none) :
    (GetOrdersByProductID { env with cacheErr := some e } pid).1 =
      (GetOrdersByProductID { env with cacheErr := none } pid).1 ∧
    (GetOrdersByProductID { env with cacheErr := some e } pid).2.storeQueries = [pid] ∧
    (GetOrdersByProductID { env with cacheErr := some e } pid).2.cacheSets =
      (GetOrdersByProductID { env with cacheErr := none } pid).2.cacheSets ∧
    (∀ msg, (GetOrdersByProductID { env with cacheErr := some e } pid).1 =
       .error msg → env.storeResult = .error msg) := by
  cases hs : env.storeResult <;>
    simp [GetOrdersByProductID, hmiss, hs]

/-- Witness for C7: an unreachable cache with a successful store read
still produces the store's answer and one store query. -/
theorem getOrders_cache_error_swallowed_witness :
    (GetOrdersByProductID ⟨none, some "boom", .ok [], none⟩ "p").1 =
      (GetOrdersByProductID ⟨none, none, .ok [], none⟩ "p").1 ∧
    (GetOrdersByProductID ⟨none, some "boom", .ok [], none⟩ "p").2.storeQueries = ["p"] :=
  ⟨(getOrders_cache_error_swallowed ⟨none, none, .ok [], none⟩ "p" "boom" rfl).1,
   (getOrders_cache_error_swallowed ⟨none, none, .ok [], none⟩ "p" "boom" rfl).2.1⟩

/-- C8: a successful `Set(key, orders)` followed immediately by
`Get(key)` — before the 60-second expiry, with the backing cache
available — returns the same list with no error. -/
theorem orderCache_round_trip (st : RedisState) (t tg : Int) (key : String)
    (orders : List Order)
    (havail : st.available = true)
    (h1 : t ≤ tg) (h2 : tg < t + 60) :
    (OrderCache.Set st t key orders).2 = none ∧
    OrderCache.Get (OrderCache.Set st t key orders).1 tg key =
      (some orders, none) := by
  simp [OrderCache.Set, OrderCache.Get, marshalOrders, redisSetCmd, redisGetCmd,
    havail, List.find?, h2, unmarshalOrders]

/-- Witness for C8: a one-order list round-trips through an empty,
available cache at times 0 and 30. -/
theorem orderCache_round_trip_witness :
    (OrderCache.Set ⟨[], true⟩ 0 "k" [⟨"o1", "p1", 10, 1, "PENDING", 0⟩]).2 = none ∧
    OrderCache.Get (OrderCache.Set ⟨[], true⟩ 0 "k"
        [⟨"o1", "p1", 10, 1, "PENDING", 0⟩]).1 30 "k" =
      (some [⟨"o1", "p1", 10, 1, "PENDING", 0⟩], none) :=
  orderCache_round_trip ⟨[], true⟩ 0 30 "k" [⟨"o1", "p1", 10, 1, "PENDING", 0⟩]
    rfl (by decide) (by decide)

/-- C10: when the stored bytes are retrieved but JSON decoding fails
partway, `OrderCache.Get` returns a non-nil partially decoded list
together with a non-nil error; `GetOrdersByProductID` then returns
that list to the caller with no error and never consults the store. -/
theorem orderCache_partial_decode_reaches_caller
    (st : RedisState) (tg expiresAt : Int) (key kfound : String)
    (part : List Order) (e : String)
    (storeResult : Except String (List Order)) (setErr : Option String)
    (pid : String)
    (havail : st.available = true)
    (hfind : st.entries.find? (fun en => en.1 = key) =
       some (kfound, .partialJson part e, expiresAt))
    (hexp : tg < expiresAt) :
    OrderCache.Get st tg key = (some part, some e) ∧
    (GetOrdersByProductID
        ⟨(OrderCache.Get st tg key).1, (OrderCache.Get st tg key).2,
         storeResult, setErr⟩ pid).1 = .ok part ∧
    (GetOrdersByProductID
        ⟨(OrderCache.Get st tg key).1, (OrderCache.Get st tg key).2,
         storeResult, setErr⟩ pid).2.storeQueries = [] := by
  have hget : OrderCache.Get st tg key = (some part, some e) := by
    simp [OrderCache.Get, redisGetCmd, havail, hfind, hexp, unmarshalOrders]
  refine ⟨hget, ?_, ?_⟩ <;> rw [hget] <;> simp [GetOrdersByProductID]

/-- Witness for C10: a cache entry with a type mismatch partway yields
a one-order partial list plus an error, which the read path returns
with no error and no store query. -/
theorem orderCache_partial_decode_reaches_caller_witness :
    OrderCache.Get
        ⟨[("orders:product:p",
           .partialJson [⟨"o1", "p1", 10, 1, "PENDING", 0⟩] "json: cannot unmarshal",
           60)], true⟩ 0 "orders:product:p" =
      (some [⟨"o1", "p1", 10, 1, "PENDING", 0⟩], some "json: cannot unmarshal") ∧
    (GetOrdersByProductID
        ⟨(OrderCache.Get
            ⟨[("orders:product:p",
               .partialJson [⟨"o1", "p1", 10, 1, "PENDING", 0⟩] "json: cannot unmarshal",
               60)], true⟩ 0 "orders:product:p").1,
         (OrderCache.Get
            ⟨[("orders:product:p",
               .partialJson [⟨"o1", "p1", 10, 1, "PENDING", 0⟩] "json: cannot unmarshal",
               60)], true⟩ 0 "orders:product:p").2,
         .ok [], none⟩ "p").1 = .ok [⟨"o1", "p1", 10, 1, "PENDING", 0⟩] ∧
    (GetOrdersByProductID
        ⟨(OrderCache.Get
            ⟨[("orders:product:p",
               .partialJson [⟨"o1", "p1", 10, 1, "PENDING", 0⟩] "json: cannot unmarshal",
               60)], true⟩ 0 "orders:product:p").1,
         (OrderCache.Get
            ⟨[("orders:product:p",
               .partialJson [⟨"o1", "p1", 10, 1, "PENDING", 0⟩] "json: cannot unmarshal",
               60)], true⟩ 0 "orders:product:p").2,
         .ok [], none⟩ "p").2.storeQueries = [] :=
  orderCache_partial_decode_reaches_caller
    ⟨[("orders:product:p",
       .partialJson [⟨"o1", "p1", 10, 1, "PENDING", 0⟩] "json: cannot unmarshal",
       60)], true⟩ 0 60 "orders:product:p" "orders:product:p"
    [⟨"o1", "p1", 10, 1, "PENDING", 0⟩] "json: cannot unmarshal"
    (.ok []) none "p" rfl rfl (by decide)

end OrderService
